import Mathlib

/-!
Shallow embedding of the sleep-detection core of the SleepDreamss repository
(src/services/sleepDetection.ts, with the session-store upsert from
src/services/storage.ts and the data shapes from the shared type file).

Modelling conventions:
  - JavaScript numbers are modelled by ℚ (probabilities, accelerations) and
    ℤ (epoch milliseconds, durations).  `Math.sqrt` is modelled by `Rat.sqrt`,
    which agrees with the real square root on the perfect squares used in
    every concrete trace below and is nonnegative everywhere, the only
    property the universal theorems use.
  - `Date` values are epoch milliseconds; `getHours` is the UTC hour of day.
  - `Math.round` is round-half-up: `jsRound q = ⌊q + 1/2⌋`.
  - The service singleton's mutable fields become the record `ServiceState`;
    the `AsyncStorage` tracking flag and the sessions persisted through
    `StorageService.saveSleepSession` are carried in the same record.
  - `async` methods are instantaneous state transformers; the millisecond
    drift between the `Date` objects created inside one tick is ignored
    (one tick happens at one instant `now`).
  - `startTracking` additionally returns the error propagated to its caller
    (`Option String`).  In the source the whole body is wrapped in
    `try { ... } catch (error) { console.error(...); this._isServiceActive
    = false; }` with no rethrow, so the returned promise always resolves:
    the second component is `none` on every path.  The model covers the
    native platform (`Platform.OS !== 'web'`), where the permission request
    happens; the storage write itself is modelled as never failing.
-/

set_option maxRecDepth 40000

namespace SleepDreams

/-- Inactivity threshold constant, 15 minutes in milliseconds. -/
def INACTIVITY_THRESHOLD : ℤ := 15 * 60 * 1000

/-- Accelerometer significance threshold constant (0.1). -/
def MOTION_THRESHOLD : ℚ := 1/10

/-- Session start threshold constant (0.8). -/
def SLEEP_CONFIDENCE_THRESHOLD : ℚ := 4/5

/-- Acceleration triple of a motion sample. -/
structure Accel where
  x : ℚ
  y : ℚ
  z : ℚ
deriving DecidableEq

/-- Rotation triple of a motion sample. -/
structure Rot where
  alpha : ℚ
  beta : ℚ
  gamma : ℚ
deriving DecidableEq

/-- DeviceMotionData from the shared type file. -/
structure DeviceMotionData where
  timestamp : ℤ
  acceleration : Accel
  rotation : Rot
deriving DecidableEq

/-- SleepSession from the shared type file (optional notes and audit
timestamps omitted; the detection service never sets them). -/
structure SleepSession where
  id : String
  bedtime : ℤ
  wakeTime : Option ℤ
  duration : ℤ
  quality : ℤ
  isManual : Bool
  confidence : ℚ
deriving DecidableEq

/-- Mutable state of the SleepDetectionService singleton, together with the
persisted artefacts it writes (tracking flag, stored sessions).  The opaque
subscription and timer handles are modelled by their presence bits. -/
structure ServiceState where
  isServiceActive : Bool
  hasMotionSubscription : Bool
  hasDetectionInterval : Bool
  lastActivity : ℤ
  motionBuffer : List DeviceMotionData
  currentSession : Option SleepSession
  storedSessions : List SleepSession
  trackingFlagStored : Option Bool
deriving DecidableEq

/-- Euclidean magnitude of an acceleration vector,
`Math.sqrt(x ** 2 + y ** 2 + z ** 2)`. -/
def magnitude (a : Accel) : ℚ :=
  Rat.sqrt (a.x ^ 2 + a.y ^ 2 + a.z ^ 2)

/-- hasSignificantMotion: magnitude strictly above the 0.1 threshold. -/
def hasSignificantMotion (m : DeviceMotionData) : Bool :=
  decide (MOTION_THRESHOLD < magnitude m.acceleration)

/-- UTC hour of day of an epoch-millisecond instant, modelling
`Date.getHours()`. -/
def getHours (t : ℤ) : ℤ :=
  t.emod 86400000 / 3600000

/-- getRecentMotionLevel: average magnitude over the last 60 buffered
samples, divided by the motion threshold, clamped to 1; 0 on an empty
buffer. -/
def getRecentMotionLevel (buf : List DeviceMotionData) : ℚ :=
  if buf.isEmpty then 0
  else
    let recentMotions := buf.drop (buf.length - 60)
    let motionSum :=
      recentMotions.foldl (fun sum m => sum + magnitude m.acceleration) 0
    min (motionSum / recentMotions.length / MOTION_THRESHOLD) 1

/-- calculateSleepProbability: sum of the inactivity, time-of-day, motion
and charging-time factors, capped above by `Math.min(probability, 1)`. -/
def calculateSleepProbability (buf : List DeviceMotionData)
    (inactivityDuration : ℤ) (currentTime : ℤ) : ℚ :=
  let inactivityFactor :=
    min ((inactivityDuration : ℚ) / (INACTIVITY_THRESHOLD : ℚ)) 1 * (4/10)
  let hour := getHours currentTime
  let timeOfDayFactor : ℚ :=
    if 22 ≤ hour ∨ hour ≤ 6 then 3/10
    else if 13 ≤ hour ∧ hour ≤ 15 then 15/100
    else 0
  let recentMotion := getRecentMotionLevel buf
  let motionFactor := (1 - recentMotion) * (2/10)
  let chargingFactor : ℚ := if 23 ≤ hour ∨ hour ≤ 6 then 1/10 else 0
  min (inactivityFactor + timeOfDayFactor + motionFactor + chargingFactor) 1

/-- Round-half-up integer rounding, modelling `Math.round`. -/
def jsRound (q : ℚ) : ℤ := ⌊q + 1/2⌋

/-- calculateMotionQuality: `Math.round((1 - avgMotion) * 100)`. -/
def calculateMotionQuality (buf : List DeviceMotionData) : ℤ :=
  jsRound ((1 - getRecentMotionLevel buf) * 100)

/-- calculateSleepQuality: duration band base blended 50-50 with the motion
quality, clamped to [0,100] and rounded. -/
def calculateSleepQuality (buf : List DeviceMotionData) (duration : ℤ) : ℤ :=
  let hours : ℚ := (duration : ℚ) / (1000 * 60 * 60)
  let base : ℚ :=
    if 7 ≤ hours ∧ hours ≤ 9 then 90
    else if 6 ≤ hours ∧ hours ≤ 10 then 75
    else if 5 ≤ hours ∧ hours ≤ 11 then 60
    else 40
  let quality : ℚ := (base + (calculateMotionQuality buf : ℚ)) / 2
  jsRound (max 0 (min 100 quality))

/-- startSleepSession: open a session back-dated to
`lastActivity + INACTIVITY_THRESHOLD`, id from `Date.now().toString()`. -/
def startSleepSession (s : ServiceState) (confidence : ℚ) (now : ℤ) :
    ServiceState :=
  { s with currentSession := some {
      id := toString now
      bedtime := s.lastActivity + INACTIVITY_THRESHOLD
      wakeTime := none
      duration := 0
      quality := 0
      isManual := false
      confidence := confidence } }

/-- StorageService.saveSleepSession: upsert by id (replace the first stored
session with a matching id, else append at the end). -/
def upsertById : List SleepSession → SleepSession → List SleepSession
  | [], session => [session]
  | first :: rest, session =>
      if first.id = session.id then session :: rest
      else first :: upsertById rest session

/-- endSleepSession: finalize the current session at `now`, persist it via
the session store, and drop the in-memory reference. -/
def endSleepSession (s : ServiceState) (now : ℤ) : ServiceState :=
  match s.currentSession with
  | none => s
  | some sess =>
      let wakeTime := now
      let duration := wakeTime - sess.bedtime
      let quality := calculateSleepQuality s.motionBuffer duration
      let completedSession : SleepSession :=
        { sess with
            wakeTime := some wakeTime
            duration := duration
            quality := quality }
      { s with
          storedSessions := upsertById s.storedSessions completedSession
          currentSession := none }

/-- performSleepDetection: one evaluation tick.  Start a session when none
is open and the probability is strictly above `SLEEP_CONFIDENCE_THRESHOLD`
(0.8); then end the current session when one is open and the probability is
strictly below 0.3. -/
def performSleepDetection (s : ServiceState) (now : ℤ) : ServiceState :=
  let inactivityDuration := now - s.lastActivity
  let sleepProbability :=
    calculateSleepProbability s.motionBuffer inactivityDuration now
  let s1 :=
    if s.currentSession = none ∧
        SLEEP_CONFIDENCE_THRESHOLD < sleepProbability then
      startSleepSession s sleepProbability now
    else s
  if s1.currentSession ≠ none ∧ sleepProbability < 3/10 then
    endSleepSession s1 now
  else s1

/-- Buffer update of the motion listener: push at the tail, then drop the
head once the length exceeds 300. -/
def recordMotion (buf : List DeviceMotionData) (m : DeviceMotionData) :
    List DeviceMotionData :=
  let b := buf ++ [m]
  if 300 < b.length then b.tail else b

/-- Body of the DeviceMotion listener callback: ignore the event while the
service is inactive, else record the sample and refresh `lastActivity` on
significant motion. -/
def handleMotionEvent (s : ServiceState) (now : ℤ) (acc : Accel)
    (rot : Rot) : ServiceState :=
  if s.isServiceActive = false then s
  else
    let motion : DeviceMotionData :=
      { timestamp := now, acceleration := acc, rotation := rot }
    let s1 := { s with motionBuffer := recordMotion s.motionBuffer motion }
    if hasSignificantMotion motion then { s1 with lastActivity := now }
    else s1

/-- startTracking on a native platform.  Returns the new state together
with the error propagated to the caller; the source catch block only logs
and resets the active flag, so the second component is `none` on every
path. -/
def startTracking (s : ServiceState) (now : ℤ) (permissionGranted : Bool) :
    ServiceState × Option String :=
  if s.isServiceActive then (s, none)
  else if permissionGranted = false then
    ({ s with isServiceActive := false }, none)
  else
    ({ s with
        isServiceActive := true
        lastActivity := now
        hasMotionSubscription := true
        hasDetectionInterval := true
        trackingFlagStored := some true }, none)

/-- stopTracking: clear the active flag, remove the subscription, clear the
timer and persist the flag; the current session is not touched. -/
def stopTracking (s : ServiceState) : ServiceState :=
  { s with
      isServiceActive := false
      hasMotionSubscription := false
      hasDetectionInterval := false
      trackingFlagStored := some false }

/-- SleepDetectionState snapshot from the shared type file. -/
structure SleepDetectionState where
  isTracking : Bool
  currentSession : Option SleepSession
  lastActivity : ℤ
  inactivityDuration : ℤ
  sleepProbability : ℚ
deriving DecidableEq

/-- getDetectionState: read-only projection of the service state. -/
def getDetectionState (s : ServiceState) (now : ℤ) : SleepDetectionState :=
  { isTracking := s.isServiceActive
    currentSession := s.currentSession
    lastActivity := s.lastActivity
    inactivityDuration := now - s.lastActivity
    sleepProbability :=
      calculateSleepProbability s.motionBuffer (now - s.lastActivity) now }

/-- External events driving the service. -/
inductive Event where
  | startTrackingEv (now : ℤ) (permissionGranted : Bool)
  | stopTrackingEv
  | motionEv (now : ℤ) (acc : Accel) (rot : Rot)
  | tickEv (now : ℤ)

/-- One event step.  Motion events reach the listener only while a
subscription exists; detection ticks fire only while the interval timer
exists. -/
def step (s : ServiceState) (e : Event) : ServiceState :=
  match e with
  | .startTrackingEv now granted => (startTracking s now granted).1
  | .stopTrackingEv => stopTracking s
  | .motionEv now acc rot =>
      if s.hasMotionSubscription then handleMotionEvent s now acc rot else s
  | .tickEv now =>
      if s.hasDetectionInterval then performSleepDetection s now else s

/-- State of a freshly constructed service (constructor runs at `t0`, so
`lastActivity = new Date()` is `t0`). -/
def initialState (t0 : ℤ) : ServiceState :=
  { isServiceActive := false
    hasMotionSubscription := false
    hasDetectionInterval := false
    lastActivity := t0
    motionBuffer := []
    currentSession := none
    storedSessions := []
    trackingFlagStored := none }

/-- Run a list of events from a state. -/
def run (s : ServiceState) (es : List Event) : ServiceState :=
  es.foldl step s

/-- Acceleration used by the concrete traces: magnitude exactly 1. -/
def unitAcc : Accel := { x := 1, y := 0, z := 0 }

/-- Rotation used by the concrete traces. -/
def zeroRot : Rot := { alpha := 0, beta := 0, gamma := 0 }

section Helpers

lemma magnitude_nonneg (a : Accel) : 0 ≤ magnitude a :=
  Rat.sqrt_nonneg _

lemma foldl_magnitude_nonneg (l : List DeviceMotionData) :
    ∀ a : ℚ, 0 ≤ a →
      0 ≤ l.foldl (fun sum m => sum + magnitude m.acceleration) a := by
  induction l with
  | nil => intro a ha; simpa using ha
  | cons m t ih =>
      intro a ha
      exact ih _ (add_nonneg ha (magnitude_nonneg m.acceleration))

lemma getRecentMotionLevel_nonneg (buf : List DeviceMotionData) :
    0 ≤ getRecentMotionLevel buf := by
  unfold getRecentMotionLevel
  split
  · exact le_refl 0
  · refine le_min ?_ (by norm_num)
    have hsum := foldl_magnitude_nonneg
      (buf.drop (buf.length - 60)) 0 (le_refl 0)
    have hlen : (0 : ℚ) ≤ ((buf.drop (buf.length - 60)).length : ℚ) := by
      positivity
    have hth : (0 : ℚ) ≤ MOTION_THRESHOLD := by norm_num [MOTION_THRESHOLD]
    exact div_nonneg (div_nonneg hsum hlen) hth

lemma getRecentMotionLevel_le_one (buf : List DeviceMotionData) :
    getRecentMotionLevel buf ≤ 1 := by
  unfold getRecentMotionLevel
  split
  · norm_num
  · exact min_le_right _ _

end Helpers

/-- Service state right after tracking started at `lastActivity = la`,
possibly extended with a buffer, a current session and stored sessions. -/
def trackingState (la : ℤ) (buf : List DeviceMotionData)
    (sess : Option SleepSession) (stored : List SleepSession) :
    ServiceState :=
  { isServiceActive := true
    hasMotionSubscription := true
    hasDetectionInterval := true
    lastActivity := la
    motionBuffer := buf
    currentSession := sess
    storedSessions := stored
    trackingFlagStored := some true }

/-- Motion sample of magnitude exactly 1 at time `t`. -/
def unitSample (t : ℤ) : DeviceMotionData :=
  { timestamp := t, acceleration := unitAcc, rotation := zeroRot }

section Eval

lemma getHours_noon : getHours 43200000 = 12 := by decide

lemma getHours_night : getHours 82800000 = 23 := by decide

lemma getHours_six : getHours 25190000 = 6 := by decide

lemma getHours_seven : getHours 25220000 = 7 := by decide

lemma toStringTickOne : toString (25190000 : ℤ) = "25190000" := by decide

lemma toStringNight : toString (82800000 : ℤ) = "82800000" := by decide

lemma grml_nil : getRecentMotionLevel [] = 0 := rfl

lemma magnitude_unitAcc : magnitude unitAcc = 1 := by
  show Rat.sqrt ((1:ℚ)^2 + 0^2 + 0^2) = 1
  norm_num

lemma hasSignificantMotion_unit (t : ℤ) :
    hasSignificantMotion (unitSample t) = true := by
  simp [hasSignificantMotion, unitSample, magnitude_unitAcc, MOTION_THRESHOLD]
  norm_num

lemma grml_unit (t : ℤ) : getRecentMotionLevel [unitSample t] = 1 := by
  simp [getRecentMotionLevel, unitSample, magnitude_unitAcc, MOTION_THRESHOLD,
    min_def]

lemma prob_borderline_night : calculateSleepProbability [] 450000 82800000 = 4/5 := by
  norm_num [calculateSleepProbability, getHours_night, grml_nil,
    INACTIVITY_THRESHOLD, min_def]

lemma prob_full_night : calculateSleepProbability [] 900000 82800000 = 1 := by
  norm_num [calculateSleepProbability, getHours_night, grml_nil,
    INACTIVITY_THRESHOLD, min_def]

lemma prob_borderline_six : calculateSleepProbability [] 450000 25190000 = 4/5 := by
  norm_num [calculateSleepProbability, getHours_six, grml_nil,
    INACTIVITY_THRESHOLD, min_def]

lemma prob_full_six : calculateSleepProbability [] 900000 25190000 = 1 := by
  norm_num [calculateSleepProbability, getHours_six, grml_nil,
    INACTIVITY_THRESHOLD, min_def]

lemma prob_partial_six : calculateSleepProbability [] 500000 25190000 = 37/45 := by
  norm_num [calculateSleepProbability, getHours_six, grml_nil,
    INACTIVITY_THRESHOLD, min_def]

lemma prob_after_wake :
    calculateSleepProbability [unitSample 25200000] 20000 25220000 = 2/225 := by
  norm_num [calculateSleepProbability, getHours_seven, grml_unit,
    INACTIVITY_THRESHOLD, min_def]

end Eval

/-- Claim C1, counterexample.  At a negative inactivity duration
(-9,000,000 ms) and noon UTC, the sleep probability is negative: the
source only caps the sum above with `Math.min(probability, 1)` and never
clamps it below at 0, so the result leaves [0,1]. -/
theorem c1_negative_probability :
    calculateSleepProbability [] (-9000000) 43200000 < 0 := by
  norm_num [calculateSleepProbability, getHours_noon, grml_nil,
    INACTIVITY_THRESHOLD, min_def]

/-- Claim C1, amended.  For every non-negative inactivity duration, every
clock time and every motion-buffer content, the value returned by
`calculateSleepProbability` lies in the closed interval [0,1]. -/
theorem c1_sleepProbability_unit_interval (buf : List DeviceMotionData)
    (d t : ℤ) (hd : 0 ≤ d) :
    0 ≤ calculateSleepProbability buf d t ∧
      calculateSleepProbability buf d t ≤ 1 := by
  have h0 := getRecentMotionLevel_nonneg buf
  have h1 := getRecentMotionLevel_le_one buf
  unfold calculateSleepProbability
  refine ⟨le_min ?_ (by norm_num), min_le_right _ _⟩
  have hin : (0 : ℚ) ≤ min ((d : ℚ) / (INACTIVITY_THRESHOLD : ℤ)) 1 * (4/10) := by
    refine mul_nonneg (le_min ?_ (by norm_num)) (by norm_num)
    refine div_nonneg ?_ ?_
    · exact_mod_cast hd
    · norm_num [INACTIVITY_THRESHOLD]
  have hmotion : (0 : ℚ) ≤ (1 - getRecentMotionLevel buf) * (2/10) := by
    nlinarith
  split_ifs <;> nlinarith [hin, hmotion]

/-- Witness for C1 at inactivity duration 0 and time 0. -/
theorem c1_sleepProbability_unit_interval_witness :
    0 ≤ calculateSleepProbability [] 0 0 ∧
      calculateSleepProbability [] 0 0 ≤ 1 :=
  c1_sleepProbability_unit_interval [] 0 0 (le_refl 0)

/-- Claim C2, counterexample.  A sleep probability of exactly 0.8 (the
start threshold) does not start a session: the source tests
`sleepProbability > SLEEP_CONFIDENCE_THRESHOLD` strictly, while the claim
says "greater than or equal".  The state below (no open session, empty
buffer, 450,000 ms of inactivity, 23:00 UTC) yields probability exactly
4/5, and the tick leaves the session slot empty. -/
theorem c2_threshold_is_strict :
    calculateSleepProbability [] 450000 82800000 = 4/5 ∧
    (performSleepDetection (trackingState 82350000 [] none [])
      82800000).currentSession = none := by
  refine ⟨prob_borderline_night, ?_⟩
  norm_num [performSleepDetection, trackingState, prob_borderline_night,
    SLEEP_CONFIDENCE_THRESHOLD]

/-- Claim C2, amended (strictly above the 0.8 threshold).  Whenever no
session is open and the computed probability is strictly greater than
`SLEEP_CONFIDENCE_THRESHOLD`, the tick opens a session whose bedtime is
`lastActivity + INACTIVITY_THRESHOLD`, whose confidence is the probability
value that triggered entry, and whose `isManual` flag is false. -/
theorem c2_start_session (s : ServiceState) (now : ℤ)
    (hs : s.currentSession = none)
    (hp : SLEEP_CONFIDENCE_THRESHOLD <
      calculateSleepProbability s.motionBuffer (now - s.lastActivity) now) :
    (performSleepDetection s now).currentSession = some
      { id := toString now
        bedtime := s.lastActivity + INACTIVITY_THRESHOLD
        wakeTime := none
        duration := 0
        quality := 0
        isManual := false
        confidence :=
          calculateSleepProbability s.motionBuffer (now - s.lastActivity) now } := by
  have hgap : (3:ℚ)/10 < SLEEP_CONFIDENCE_THRESHOLD := by
    norm_num [SLEEP_CONFIDENCE_THRESHOLD]
  simp only [performSleepDetection]
  split_ifs with h1 h2
  · rcases h2 with ⟨-, hlt⟩
    linarith
  · simp [startSleepSession]
  · exact absurd ⟨hs, hp⟩ h1
  · exact absurd ⟨hs, hp⟩ h1

/-- Witness for C2 on a concrete state with probability 1 at 23:00 UTC
after a full inactivity window. -/
theorem c2_start_session_witness :
    (performSleepDetection (trackingState 81900000 [] none [])
      82800000).currentSession = some
      { id := "82800000"
        bedtime := 82800000
        wakeTime := none
        duration := 0
        quality := 0
        isManual := false
        confidence := 1 } := by
  have h := c2_start_session (trackingState 81900000 [] none []) 82800000 rfl
    (by norm_num [trackingState, prob_full_night, SLEEP_CONFIDENCE_THRESHOLD])
  rw [h]
  norm_num [trackingState, prob_full_night, INACTIVITY_THRESHOLD, toStringNight]

/-- Claim C7.  Stopping tracking reports `isTracking = false` through the
detection-state snapshot while leaving the open session (and the stored
sessions) unchanged: `stopTracking` never finalizes, mutates or drops the
current session. -/
theorem c7_stopTracking_preserves_session (s : ServiceState) (now : ℤ) :
    (getDetectionState (stopTracking s) now).isTracking = false ∧
    (getDetectionState (stopTracking s) now).currentSession =
      s.currentSession ∧
    (stopTracking s).currentSession = s.currentSession ∧
    (stopTracking s).storedSessions = s.storedSessions :=
  ⟨rfl, rfl, rfl, rfl⟩

/-- Claim C8, counterexample.  On permission denial `startTracking` does
leave tracking inactive, but the thrown error is caught inside the method
and only logged: the second component (the error propagated to the caller)
is `none`, so the call completes without surfacing a recoverable error,
contrary to the claim. -/
theorem c8_error_swallowed :
    (startTracking (initialState 0) 5 false).1.isServiceActive = false ∧
    (startTracking (initialState 0) 5 false).2 = none := by
  constructor <;> decide

/-- Claim C8, amended.  When the permission request is denied and tracking
was not already active, `startTracking` returns the state unchanged (flag
still false, no subscription, no timer, no persisted flag write) and
resolves without propagating any error to the caller. -/
theorem c8_denied_leaves_inactive (s : ServiceState) (now : ℤ)
    (h : s.isServiceActive = false) :
    startTracking s now false = (s, none) := by
  cases s
  simp_all [startTracking]

/-- Witness for C8 on the freshly constructed state. -/
theorem c8_denied_leaves_inactive_witness :
    startTracking (initialState 0) 5 false = (initialState 0, none) :=
  c8_denied_leaves_inactive (initialState 0) 5 rfl

/-- Claim C9.  When tracking is already active, `startTracking` returns
immediately: the whole state (flag, subscription, timer, buffer, last
activity, current session, persisted data) is left identical and no error
is surfaced. -/
theorem c9_startTracking_idempotent (s : ServiceState) (now : ℤ)
    (granted : Bool) (h : s.isServiceActive = true) :
    startTracking s now granted = (s, none) := by
  simp [startTracking, h]

/-- Witness for C9 on a concrete active state. -/
theorem c9_startTracking_idempotent_witness :
    startTracking
      { isServiceActive := true
        hasMotionSubscription := true
        hasDetectionInterval := true
        lastActivity := 0
        motionBuffer := []
        currentSession := none
        storedSessions := []
        trackingFlagStored := some true } 5 true =
      ({ isServiceActive := true
         hasMotionSubscription := true
         hasDetectionInterval := true
         lastActivity := 0
         motionBuffer := []
         currentSession := none
         storedSessions := []
         trackingFlagStored := some true }, none) :=
  c9_startTracking_idempotent _ 5 true rfl

/-- Claim C10.  A single evaluation tick performs at most one transition:
a tick that finds no open session never persists anything (so a session
started in that tick is not also finalized), and a tick that finds an open
session either keeps that very session or ends it leaving the slot empty
(a session finalized in a tick is never restarted within the same tick). -/
theorem c10_single_transition (s : ServiceState) (now : ℤ) :
    (s.currentSession = none →
      (performSleepDetection s now).storedSessions = s.storedSessions) ∧
    (s.currentSession ≠ none →
      (performSleepDetection s now).currentSession = s.currentSession ∨
      (performSleepDetection s now).currentSession = none) := by
  have hgap : (3:ℚ)/10 < SLEEP_CONFIDENCE_THRESHOLD := by
    norm_num [SLEEP_CONFIDENCE_THRESHOLD]
  simp only [performSleepDetection]
  constructor
  · intro h
    split_ifs with h1 h2 h3
    · rcases h1 with ⟨-, hgt⟩
      rcases h2 with ⟨-, hlt⟩
      linarith
    · simp [startSleepSession]
    · simp [endSleepSession, h]
    · rfl
  · intro h
    obtain ⟨sess, hs⟩ := Option.ne_none_iff_exists'.mp h
    split_ifs with h1 h2 h3
    · exact absurd h1.1 h
    · exact absurd h1.1 h
    · right
      simp [endSleepSession, hs]
    · left
      rfl

/-- Witness for C10: a tick from the idle initial state leaves the stored
sessions untouched. -/
theorem c10_single_transition_witness :
    (performSleepDetection (initialState 0) 30000).storedSessions =
      (initialState 0).storedSessions :=
  (c10_single_transition (initialState 0) 30000).1 rfl

/-- Clamp of `x` into the interval [lo, hi], as the claim words it. -/
def clamp (lo hi x : ℚ) : ℚ := max lo (min hi x)

/-- Quality score as the claim C4 states it: narrowest matching duration
band first (inclusive bounds), motion quality `round((1 - level) * 100)`,
final `round(clamp((base + motion) / 2, 0, 100))`. -/
def qualityFromSpec (durationMs : ℤ) (recentActivityLevel : ℚ) : ℤ :=
  let hours : ℚ := (durationMs : ℚ) / (1000 * 60 * 60)
  let durationBase : ℚ :=
    if 7 ≤ hours ∧ hours ≤ 9 then 90
    else if 6 ≤ hours ∧ hours ≤ 10 then 75
    else if 5 ≤ hours ∧ hours ≤ 11 then 60
    else 40
  let motionQuality : ℤ := jsRound ((1 - recentActivityLevel) * 100)
  jsRound (clamp 0 100 ((durationBase + (motionQuality : ℚ)) / 2))

/-- Claim C4.  The implemented quality score coincides with the formula of
the claim at the recent-activity level read from the buffer, and on the two
reference examples: 8 h with activity level 0 gives 95, and 4 h with
activity level 1 (a buffer whose recent level is 1) gives 20. -/
theorem c4_quality_formula (buf : List DeviceMotionData) (duration : ℤ) :
    calculateSleepQuality buf duration =
      qualityFromSpec duration (getRecentMotionLevel buf) ∧
    calculateSleepQuality [] 28800000 = 95 ∧
    calculateSleepQuality [unitSample 0] 14400000 = 20 := by
  refine ⟨rfl, ?_, ?_⟩
  · norm_num [calculateSleepQuality, calculateMotionQuality, grml_nil,
      jsRound, min_def, max_def]
  · norm_num [calculateSleepQuality, calculateMotionQuality, grml_unit,
      jsRound, min_def, max_def]

lemma recordMotion_eq_drop (buf : List DeviceMotionData)
    (m : DeviceMotionData) (h : buf.length ≤ 300) :
    recordMotion buf m = (buf ++ [m]).drop (buf.length + 1 - 300) := by
  simp only [recordMotion]
  split_ifs with hlen
  · simp only [List.length_append, List.length_cons, List.length_nil] at hlen
    rw [← List.drop_one]
    congr 1
    omega
  · simp only [List.length_append, List.length_cons, List.length_nil] at hlen
    rw [show buf.length + 1 - 300 = 0 by omega, List.drop_zero]

lemma foldl_recordMotion_eq (ms : List DeviceMotionData) :
    ∀ buf : List DeviceMotionData, buf.length ≤ 300 →
      ms.foldl recordMotion buf =
        (buf ++ ms).drop (buf.length + ms.length - 300) := by
  induction ms with
  | nil =>
      intro buf h
      simp only [List.foldl_nil, List.append_nil, List.length_nil]
      rw [show buf.length + 0 - 300 = 0 by omega, List.drop_zero]
  | cons m tail ih =>
      intro buf h
      have hlen : (recordMotion buf m).length ≤ 300 := by
        rw [recordMotion_eq_drop buf m h]
        simp only [List.length_drop, List.length_append, List.length_cons,
          List.length_nil]
        omega
      rw [List.foldl_cons, ih _ hlen, recordMotion_eq_drop buf m h]
      rw [← List.drop_append_of_le_length
        (by simp only [List.length_append, List.length_cons,
          List.length_nil]; omega)]
      rw [List.drop_drop]
      congr 1
      · simp only [List.length_drop, List.length_append, List.length_cons,
          List.length_nil]
        omega
      · simp [List.append_assoc]

/-- Claim C6.  Starting from an empty motion buffer, any sequence of
insertions leaves at most 300 entries, and the resulting buffer is exactly
the suffix of the inserted samples of length at most 300: eviction is
strictly FIFO (the oldest entry drops first) and the buffer holds the most
recent samples in arrival order. -/
theorem c6_buffer_capacity_fifo (ms : List DeviceMotionData) :
    (ms.foldl recordMotion []).length ≤ 300 ∧
    ms.foldl recordMotion [] = ms.drop (ms.length - 300) := by
  have h := foldl_recordMotion_eq ms [] (by simp)
  simp only [List.nil_append, List.length_nil, Nat.zero_add] at h
  refine ⟨?_, h⟩
  rw [h]
  simp only [List.length_drop]
  omega

section Traces

/-- Session opened at the 6:59:50 tick after a full 15-minute inactivity
window (bedtime backdated exactly to the tick instant). -/
def goodSession : SleepSession :=
  { id := "25190000"
    bedtime := 25190000
    wakeTime := none
    duration := 0
    quality := 0
    isManual := false
    confidence := 1 }

/-- The previous session finalized at 7:00:20, 30,000 ms after bedtime. -/
def goodCompleted : SleepSession :=
  { id := "25190000"
    bedtime := 25190000
    wakeTime := some 25220000
    duration := 30000
    quality := 20
    isManual := false
    confidence := 1 }

/-- Session opened at the 6:59:50 tick after only 500,000 ms of
inactivity: its backdated bedtime 25,590,000 lies in the future. -/
def lateSession : SleepSession :=
  { id := "25190000"
    bedtime := 25590000
    wakeTime := none
    duration := 0
    quality := 0
    isManual := false
    confidence := 37/45 }

/-- The future-bedtime session finalized at 7:00:20: duration is
negative. -/
def lateCompleted : SleepSession :=
  { id := "25190000"
    bedtime := 25590000
    wakeTime := some 25220000
    duration := -370000
    quality := 20
    isManual := false
    confidence := 37/45 }

/-- Trace with probability exactly 4/5 at the first tick: start tracking
at 6:52:20, tick at 6:59:50, significant motion at 7:00:00, tick at
7:00:20. -/
def boundaryEvents : List Event :=
  [.startTrackingEv 24740000 true, .tickEv 25190000,
   .motionEv 25200000 unitAcc zeroRot, .tickEv 25220000]

/-- Trace with probability 1 at the first tick (full inactivity window):
start tracking at 6:44:50, then the same tick, motion, tick schedule. -/
def goodEvents : List Event :=
  [.startTrackingEv 24290000 true, .tickEv 25190000,
   .motionEv 25200000 unitAcc zeroRot, .tickEv 25220000]

/-- Trace with probability 37/45 at the first tick (500,000 ms of
inactivity, so bedtime is backdated past the wake tick): start tracking at
6:51:30, then the same tick, motion, tick schedule. -/
def lateEvents : List Event :=
  [.startTrackingEv 24690000 true, .tickEv 25190000,
   .motionEv 25200000 unitAcc zeroRot, .tickEv 25220000]

lemma unitSample_fold (t : ℤ) :
    ({ timestamp := t, acceleration := unitAcc, rotation := zeroRot } :
      DeviceMotionData) = unitSample t := rfl

lemma step_start (t : ℤ) :
    step (initialState 0) (.startTrackingEv t true) =
      trackingState t [] none [] := by
  simp [step, startTracking, initialState, trackingState]

lemma step_motion (la t : ℤ) (sess : Option SleepSession)
    (stored : List SleepSession) :
    step (trackingState la [] sess stored) (.motionEv t unitAcc zeroRot) =
      trackingState t [unitSample t] sess stored := by
  simp [step, trackingState, handleMotionEvent, recordMotion,
    unitSample_fold, hasSignificantMotion_unit]

lemma boundary_tick1 :
    step (trackingState 24740000 [] none []) (.tickEv 25190000) =
      trackingState 24740000 [] none [] := by
  norm_num [step, trackingState, performSleepDetection,
    prob_borderline_six, SLEEP_CONFIDENCE_THRESHOLD]

lemma boundary_tick2 :
    step (trackingState 25200000 [unitSample 25200000] none [])
      (.tickEv 25220000) =
      trackingState 25200000 [unitSample 25200000] none [] := by
  norm_num [step, trackingState, performSleepDetection, prob_after_wake,
    SLEEP_CONFIDENCE_THRESHOLD]

lemma quality_short :
    calculateSleepQuality [unitSample 25200000] 30000 = 20 := by
  norm_num [calculateSleepQuality, calculateMotionQuality, grml_unit,
    jsRound, min_def, max_def]

lemma quality_neg :
    calculateSleepQuality [unitSample 25200000] (-370000) = 20 := by
  norm_num [calculateSleepQuality, calculateMotionQuality, grml_unit,
    jsRound, min_def, max_def]

lemma good_tick1 :
    step (trackingState 24290000 [] none []) (.tickEv 25190000) =
      trackingState 24290000 [] (some goodSession) [] := by
  norm_num [step, trackingState, performSleepDetection, prob_full_six,
    SLEEP_CONFIDENCE_THRESHOLD, startSleepSession, goodSession,
    INACTIVITY_THRESHOLD, toStringTickOne]

lemma good_tick2 :
    step (trackingState 25200000 [unitSample 25200000] (some goodSession) [])
      (.tickEv 25220000) =
      trackingState 25200000 [unitSample 25200000] none [goodCompleted] := by
  norm_num [step, trackingState, performSleepDetection, prob_after_wake,
    SLEEP_CONFIDENCE_THRESHOLD, endSleepSession, goodSession, goodCompleted,
    upsertById, quality_short]
  simp

lemma late_tick1 :
    step (trackingState 24690000 [] none []) (.tickEv 25190000) =
      trackingState 24690000 [] (some lateSession) [] := by
  norm_num [step, trackingState, performSleepDetection, prob_partial_six,
    SLEEP_CONFIDENCE_THRESHOLD, startSleepSession, lateSession,
    INACTIVITY_THRESHOLD, toStringTickOne]

lemma late_tick2 :
    step (trackingState 25200000 [unitSample 25200000] (some lateSession) [])
      (.tickEv 25220000) =
      trackingState 25200000 [unitSample 25200000] none [lateCompleted] := by
  norm_num [step, trackingState, performSleepDetection, prob_after_wake,
    SLEEP_CONFIDENCE_THRESHOLD, endSleepSession, lateSession, lateCompleted,
    upsertById, quality_neg]
  simp

lemma boundary_run :
    run (initialState 0) boundaryEvents =
      trackingState 25200000 [unitSample 25200000] none [] := by
  simp only [run, boundaryEvents, List.foldl_cons, List.foldl_nil,
    step_start, boundary_tick1, step_motion, boundary_tick2]

lemma good_run :
    run (initialState 0) goodEvents =
      trackingState 25200000 [unitSample 25200000] none [goodCompleted] := by
  simp only [run, goodEvents, List.foldl_cons, List.foldl_nil,
    step_start, good_tick1, step_motion, good_tick2]

lemma late_run :
    run (initialState 0) lateEvents =
      trackingState 25200000 [unitSample 25200000] none [lateCompleted] := by
  simp only [run, lateEvents, List.foldl_cons, List.foldl_nil,
    step_start, late_tick1, step_motion, late_tick2]

end Traces

/-- Claim C3, counterexample.  In a tick sequence whose first tick sees
probability exactly 4/5 (which is "at or above 0.8" as the claim words it)
and whose last tick sees probability 2/225 < 0.3, no session is ever
created or finalized, because the source compares the start threshold
strictly.  So the claimed scenario outcome "exactly one session is created
and finalized" fails. -/
theorem c3_boundary_scenario_empty :
    calculateSleepProbability [] 450000 25190000 = 4/5 ∧
    calculateSleepProbability [unitSample 25200000] 20000 25220000 < 3/10 ∧
    (run (initialState 0) boundaryEvents).storedSessions = [] ∧
    (run (initialState 0) boundaryEvents).currentSession = none := by
  refine ⟨prob_borderline_six, ?_, ?_, ?_⟩
  · rw [prob_after_wake]; norm_num
  · simp [boundary_run, trackingState]
  · simp [boundary_run, trackingState]

/-- Claim C3, amended (the scenario needs probability strictly above 0.8
at tick 1).  Whenever a session is open and the probability falls strictly
below 0.3, the tick finalizes it: wakeTime is set to the tick instant,
duration to exactly (now − bedtime), the finalized session is handed to
the session store, and the in-memory reference becomes none.  Moreover, in
the concrete tick sequence `goodEvents` with probability 1 > 0.8 at tick 1
and 2/225 < 0.3 at the last tick, exactly one session is created and
finalized. -/
theorem c3_end_session (s : ServiceState) (now : ℤ) (sess : SleepSession)
    (hs : s.currentSession = some sess)
    (hp : calculateSleepProbability s.motionBuffer (now - s.lastActivity)
      now < 3/10) :
    ((performSleepDetection s now).currentSession = none ∧
      (performSleepDetection s now).storedSessions =
        upsertById s.storedSessions
          { sess with
              wakeTime := some now
              duration := now - sess.bedtime
              quality :=
                calculateSleepQuality s.motionBuffer (now - sess.bedtime) }) ∧
    (run (initialState 0) goodEvents).storedSessions = [goodCompleted] ∧
    (run (initialState 0) goodEvents).currentSession = none := by
  refine ⟨?_, by simp [good_run, trackingState], by simp [good_run, trackingState]⟩
  simp only [performSleepDetection]
  split_ifs with h1 h2 h3
  · exact absurd h1.1 (by simp [hs])
  · exact absurd h1.1 (by simp [hs])
  · constructor <;> simp [endSleepSession, hs]
  · exact absurd ⟨by simp [hs], hp⟩ h3

/-- Witness for C3: the good trace state right before the final tick. -/
theorem c3_end_session_witness :
    (performSleepDetection
      (trackingState 25200000 [unitSample 25200000] (some goodSession) [])
      25220000).currentSession = none :=
  (c3_end_session
    (trackingState 25200000 [unitSample 25200000] (some goodSession) [])
    25220000 goodSession rfl
    (by norm_num [trackingState, prob_after_wake])).1.1

/-- Claim C5, counterexample.  A reachable finalization with a strictly
negative duration: the session is started after only 500,000 ms of
inactivity (probability 37/45 > 0.8 at 6:59:50), so its backdated bedtime
25,590,000 postdates the wake tick 25,220,000, and the stored duration is
-370,000 ms. -/
theorem c5_negative_duration :
    (run (initialState 0) lateEvents).storedSessions = [lateCompleted] ∧
    lateCompleted.duration < 0 := by
  refine ⟨?_, by norm_num [lateCompleted]⟩
  simp [late_run, trackingState]

lemma mem_upsertById {l : List SleepSession} {x c : SleepSession}
    (h : c ∈ upsertById l x) : c ∈ l ∨ c = x := by
  induction l with
  | nil =>
      simp only [upsertById, List.mem_singleton] at h
      exact Or.inr h
  | cons a t ih =>
      simp only [upsertById] at h
      split_ifs at h with hid
      · rcases List.mem_cons.mp h with h1 | h1
        · exact Or.inr h1
        · exact Or.inl (List.mem_cons_of_mem a h1)
      · rcases List.mem_cons.mp h with h1 | h1
        · exact Or.inl (h1 ▸ List.mem_cons_self a t)
        · rcases ih h1 with h2 | h2
          · exact Or.inl (List.mem_cons_of_mem a h2)
          · exact Or.inr h2

/-- Claim C5, amended.  A finalized duration is non-negative provided the
session was started at a tick where at least the full 15-minute
inactivity threshold had elapsed (then the backdated bedtime does not
postdate the start tick): every session stored by a later tick at time
t2 ≥ t1 either was already stored or has duration ≥ 0.  Without that
proviso the counterexample shows a reachable negative duration. -/
theorem c5_duration_nonneg (s s2 : ServiceState) (t1 t2 : ℤ)
    (sess : SleepSession)
    (h0 : s.currentSession = none)
    (h1 : (performSleepDetection s t1).currentSession = some sess)
    (hin : INACTIVITY_THRESHOLD ≤ t1 - s.lastActivity)
    (h2 : s2.currentSession = some sess)
    (ht : t1 ≤ t2) :
    ∀ c ∈ (performSleepDetection s2 t2).storedSessions,
      c ∈ s2.storedSessions ∨ 0 ≤ c.duration := by
  have hgap : (3:ℚ)/10 < SLEEP_CONFIDENCE_THRESHOLD := by
    norm_num [SLEEP_CONFIDENCE_THRESHOLD]
  have hbed : sess.bedtime ≤ t1 := by
    have hbe : sess.bedtime = s.lastActivity + INACTIVITY_THRESHOLD := by
      simp only [performSleepDetection] at h1
      split_ifs at h1 with hc1 hc2 hc3
      · exact absurd hc2.2 (not_lt.mpr (by linarith [hc1.2]))
      · simp only [startSleepSession] at h1
        simp only [Option.some.injEq] at h1
        rw [← h1]
      · exact absurd h0 hc3.1
      · exact absurd h1 (by simp [h0])
    omega
  intro c hc
  simp only [performSleepDetection] at hc
  split_ifs at hc with hc1 hc2
  · exact absurd hc1.1 (by simp [h2])
  · exact absurd hc1.1 (by simp [h2])
  · simp only [endSleepSession, h2] at hc
    rcases mem_upsertById hc with h | h
    · exact Or.inl h
    · refine Or.inr ?_
      rw [h]
      simp only
      omega
  · exact Or.inl hc

lemma step_tick_eq (s : ServiceState) (t : ℤ)
    (h : s.hasDetectionInterval = true) :
    step s (.tickEv t) = performSleepDetection s t := by
  simp [step, h]

/-- Witness for C5 on the good trace: the session started after a full
inactivity window is finalized with non-negative duration (it is not
among the previously stored sessions, which are empty). -/
theorem c5_duration_nonneg_witness :
    goodCompleted ∈
      (trackingState 25200000 [unitSample 25200000] (some goodSession)
        []).storedSessions ∨ (0:ℤ) ≤ goodCompleted.duration := by
  have hstep1 :
      (performSleepDetection (trackingState 24290000 [] none [])
        25190000).currentSession = some goodSession := by
    have h := good_tick1
    rw [step_tick_eq _ _ rfl] at h
    rw [h]
    rfl
  have hstep2 :
      goodCompleted ∈
        (performSleepDetection
          (trackingState 25200000 [unitSample 25200000] (some goodSession)
            []) 25220000).storedSessions := by
    have h := good_tick2
    rw [step_tick_eq _ _ rfl] at h
    rw [h]
    simp [trackingState]
  exact c5_duration_nonneg (trackingState 24290000 [] none [])
    (trackingState 25200000 [unitSample 25200000] (some goodSession) [])
    25190000 25220000 goodSession rfl hstep1
    (by norm_num [trackingState, INACTIVITY_THRESHOLD]) rfl
    (by norm_num) goodCompleted hstep2

end SleepDreams
